import Mathlib

/-!
Shallow embedding of the supervised-training factory module
(src/ignite/engine/__init__.py) and of the AveragePrecision metric
(src/ignite/contrib/metrics/average_precision.py).

Python-level effects are made explicit:
  - a raised exception becomes an `Except PyError` error value;
  - a Python local variable that is only conditionally assigned inside
    `create_supervised_trainer` (such as `is_native_amp` and `is_apex_amp`)
    becomes an `Option Bool`: `none` models the unbound state, and reading
    an unbound local raises `NameError`, exactly as CPython does for a
    free variable referenced before assignment;
  - the side effects performed by the per-iteration closures (calls on the
    model, the optimizer, the loss, the scaler, the clipping utility) are
    recorded as an event trace `List Ev`, so that claims about which
    operations run, and in which order, are statable.
Tensors are modelled as data tagged with an optional device string:
`convert_tensor` is a pure device move, as in `ignite.utils.convert_tensor`.
-/

namespace Ignite

/-- Python exception classes that the two source files can raise. -/
inductive PyError
  | NameError
  | ValueError
  | RuntimeError
  | ImportError
deriving DecidableEq, Repr

/-- A torch tensor for the engine module: one datum plus a device tag. -/
structure Tensor where
  data : Int
  device : Option String
deriving DecidableEq, Repr

/-- Model of ignite.utils.convert_tensor: move the tensor to the given
device when one is given; the payload is never changed. -/
def convert_tensor (t : Tensor) (device : Option String) (non_blocking : Bool) : Tensor :=
  match device with
  | none => t
  | some d => { data := t.data, device := some d }

/-- Model of the tuple destructuring `x, y = batch` followed by the two
`convert_tensor` calls in `_prepare_batch` (engine/__init__.py lines 32-42).
A batch of any length other than two makes the destructuring raise. -/
def _prepare_batch (batch : List Tensor) (device : Option String) (non_blocking : Bool) :
    Except PyError (Tensor × Tensor) :=
  match batch with
  | [x, y] =>
    .ok (convert_tensor x device non_blocking, convert_tensor y device non_blocking)
  | _ => .error PyError.ValueError

/-- Test that a character list starts with the given pattern. -/
def charsStartWith (pat s : List Char) : Bool :=
  match pat, s with
  | [], _ => true
  | _ :: _, [] => false
  | a :: ps, b :: ss => a == b && charsStartWith ps ss

/-- Test that a character list has the pattern as a contiguous part. -/
def charsContain (pat s : List Char) : Bool :=
  match s with
  | [] => charsStartWith pat []
  | _ :: ss => charsStartWith pat s || charsContain pat ss

/-- Substring test used for the check `"xla" in device_type`. -/
def strContains (s pat : String) : Bool :=
  charsContain pat.data s.data

/-- Lines 103-104: `device_type = device.type if isinstance(device, torch.device)
else device` followed by `on_tpu = "xla" in device_type if device_type is not
None else False`. The device is modelled by its type string. -/
def on_tpu_of (device : Option String) : Bool :=
  match device with
  | some device_type => strContains device_type "xla"
  | none => false

/-- Observable operations performed by the per-iteration closures. -/
inductive Ev
  | modelTrain
  | zeroGrad
  | modelEval
  | autocastEnter
  | forward
  | lossCalc
  | apexScaledBackward
  | scaleBackward
  | unscaleGrads
  | clipModelParams
  | clipApexMasterParams
  | xmOptStep
  | scalerStep
  | scalerUpdate
  | optStep
deriving DecidableEq, Repr

/-- The closure environment that `_update` captures from the factory body
for the amp dispatch.  `is_native_amp` and `is_apex_amp` are locals of
`create_supervised_trainer` assigned only inside the `if amp ...` branches
(lines 109-119), so each is `none` whenever its assigning branch did not
run.  `autocastBound` records whether the name `autocast` was imported
(line 110).  `ampTruthy` is the truthiness of the name `amp` inside the
closure: the bool argument, except in the apex branch where line 115
rebinds `amp` to the (truthy) apex module. -/
structure AmpEnv where
  is_native_amp : Option Bool
  is_apex_amp : Option Bool
  autocastBound : Bool
  ampTruthy : Bool
deriving DecidableEq, Repr

/-- Reading a conditionally-assigned local: unbound raises NameError. -/
def lookupName (v : Option Bool) : Except PyError Bool :=
  match v with
  | none => .error PyError.NameError
  | some b => .ok b

/-- Line 125 and line 147: `is_native_amp and not is_apex_amp`, with the
Python short-circuit order of evaluation. -/
def cond_native_and_not_apex (env : AmpEnv) : Except PyError Bool := do
  let a ← lookupName env.is_native_amp
  if a then
    let b ← lookupName env.is_apex_amp
    pure (!b)
  else
    pure false

/-- Line 133: `is_apex_amp and not is_native_amp`. -/
def cond_apex_and_not_native (env : AmpEnv) : Except PyError Bool := do
  let a ← lookupName env.is_apex_amp
  if a then
    let b ← lookupName env.is_native_amp
    pure (!b)
  else
    pure false

/-- Line 136: `not is_apex_amp and is_native_amp`. -/
def cond_not_apex_and_native (env : AmpEnv) : Except PyError Bool := do
  let a ← lookupName env.is_apex_amp
  if a then
    pure false
  else
    lookupName env.is_native_amp

/-- Line 140: `grad_norm_kwargs and not is_apex_amp and is_native_amp`.
`grad_norm_kwargs` is a kwargs dict, always bound; its truthiness is the
bool argument here. -/
def cond_grad_native (grad_norm_kwargs : Bool) (env : AmpEnv) : Except PyError Bool := do
  if grad_norm_kwargs then
    let a ← lookupName env.is_apex_amp
    if a then
      pure false
    else
      lookupName env.is_native_amp
  else
    pure false

/-- Line 142: `grad_norm_kwargs and is_apex_amp and not is_native_amp`. -/
def cond_grad_apex (grad_norm_kwargs : Bool) (env : AmpEnv) : Except PyError Bool := do
  if grad_norm_kwargs then
    let a ← lookupName env.is_apex_amp
    if a then
      let b ← lookupName env.is_native_amp
      pure (!b)
    else
      pure false
  else
    pure false

/-- Line 150: `not is_native_amp and is_apex_amp`. -/
def cond_not_native_and_apex (env : AmpEnv) : Except PyError Bool := do
  let a ← lookupName env.is_native_amp
  if a then
    pure false
  else
    lookupName env.is_apex_amp

/-- The `_update` closure of `create_supervised_trainer` (lines 121-153),
statement by statement.  It returns the event trace of the iteration and
the value of `output_transform(x, y, y_pred, loss)`, or the Python
exception the iteration raises. -/
def _update {Out : Type} (env : AmpEnv) (model : Tensor → Tensor)
    (loss_fn : Tensor → Tensor → Tensor) (device : Option String) (non_blocking : Bool)
    (prepare_batch : List Tensor → Option String → Bool → Except PyError (Tensor × Tensor))
    (output_transform : Tensor → Tensor → Tensor → Tensor → Out)
    (grad_norm_kwargs : Bool) (on_tpu : Bool)
    (batch : List Tensor) : Except PyError (List Ev × Out) := do
  let xy ← prepare_batch batch device non_blocking
  let x := xy.1
  let y := xy.2
  let c1 ← cond_native_and_not_apex env
  let fwdEv ←
    if c1 then
      if env.autocastBound then
        (.ok [Ev.autocastEnter, Ev.forward, Ev.lossCalc] : Except PyError (List Ev))
      else
        .error PyError.NameError
    else
      .ok [Ev.forward, Ev.lossCalc]
  let y_pred := model x
  let loss := loss_fn y_pred y
  let c2 ← cond_apex_and_not_native env
  let bwdEv ←
    if c2 then
      (.ok [Ev.apexScaledBackward] : Except PyError (List Ev))
    else do
      let c3 ← cond_not_apex_and_native env
      if c3 then
        pure [Ev.scaleBackward, Ev.unscaleGrads]
      else
        pure []
  let c4 ← cond_grad_native grad_norm_kwargs env
  let clipEv ←
    if c4 then
      (.ok [Ev.clipModelParams] : Except PyError (List Ev))
    else do
      let c5 ← cond_grad_apex grad_norm_kwargs env
      if c5 then
        pure [Ev.clipApexMasterParams]
      else
        pure []
  let stepEv ←
    if on_tpu && !env.ampTruthy then
      (.ok [Ev.xmOptStep] : Except PyError (List Ev))
    else do
      let c6 ← cond_native_and_not_apex env
      if c6 then
        pure [Ev.scalerStep, Ev.scalerUpdate]
      else do
        let c7 ← cond_not_native_and_apex env
        if c7 then
          pure [Ev.optStep]
        else
          pure []
  pure ([Ev.modelTrain, Ev.zeroGrad] ++ fwdEv ++ bwdEv ++ clipEv ++ stepEv,
    output_transform x y y_pred loss)

/-- An engine, as the factories return it: the per-iteration process
function handed to the Engine constructor, the deterministic flag choosing
between Engine and DeterministicEngine, and the metric attachments the
evaluator factory performs before returning. -/
structure Engine (Out : Type) where
  process : List Tensor → Except PyError (List Ev × Out)
  deterministic : Bool
  metrics_attached : List (String × Nat)

/-- Lines 109-119 of the factory: the amp branch selection.  The torch
version test and the availability of apex are environment facts passed as
booleans.  It yields the closure environment, or the ImportError of line
119 when amp is requested, torch is older than 1.6.0, and apex is missing. -/
def ampEnvResult (amp torch_ge_1_6 apex_available : Bool) : Except PyError AmpEnv :=
  if amp && torch_ge_1_6 then
    .ok { is_native_amp := some true, is_apex_amp := none, autocastBound := true,
          ampTruthy := true }
  else if amp then
    if apex_available then
      .ok { is_native_amp := none, is_apex_amp := some true, autocastBound := false,
            ampTruthy := true }
    else
      .error PyError.ImportError
  else
    .ok { is_native_amp := none, is_apex_amp := none, autocastBound := false,
          ampTruthy := false }

/-- `create_supervised_trainer` (lines 45-157).  The result pairs the
trace of model/optimizer/loss operations performed at factory time (the
factory body performs none, hence it is always empty on success) with the
constructed engine.  The default `output_transform` and `prepare_batch`
are separate definitions below. -/
def create_supervised_trainer {Out : Type} (model : Tensor → Tensor) (optimizer : Nat)
    (loss_fn : Tensor → Tensor → Tensor) (device : Option String) (non_blocking : Bool)
    (prepare_batch : List Tensor → Option String → Bool → Except PyError (Tensor × Tensor))
    (output_transform : Tensor → Tensor → Tensor → Tensor → Out)
    (deterministic : Bool) (amp : Bool) (grad_norm_kwargs : Bool)
    (torch_ge_1_6 : Bool) (apex_available : Bool) (has_xla_support : Bool) :
    Except PyError (List Ev × Engine Out) :=
  if on_tpu_of device && !has_xla_support then
    .error PyError.RuntimeError
  else
    match ampEnvResult amp torch_ge_1_6 apex_available with
    | .error e => .error e
    | .ok env =>
      .ok ([],
        { process := _update env model loss_fn device non_blocking prepare_batch
            output_transform grad_norm_kwargs (on_tpu_of device),
          deterministic := deterministic,
          metrics_attached := [] })

/-- Default trainer output transform: `lambda x, y, y_pred, loss: loss.item()`. -/
def trainer_default_output_transform (x y y_pred loss : Tensor) : Int :=
  loss.data

/-- The `_inference` closure of `create_supervised_evaluator`
(lines 205-210): model.eval, no_grad, prepare the batch, forward, and the
output transform.  No optimizer and no loss function occur in its body. -/
def _inference {Out : Type} (model : Tensor → Tensor) (device : Option String)
    (non_blocking : Bool)
    (prepare_batch : List Tensor → Option String → Bool → Except PyError (Tensor × Tensor))
    (output_transform : Tensor → Tensor → Tensor → Out)
    (batch : List Tensor) : Except PyError (List Ev × Out) := do
  let xy ← prepare_batch batch device non_blocking
  pure ([Ev.modelEval, Ev.forward], output_transform xy.1 xy.2 (model xy.1))

/-- `create_supervised_evaluator` (lines 160-217).  Its parameters are
exactly those of the source: a model, an optional metrics dict (modelled
as an association list in insertion order), device, non_blocking,
prepare_batch and output_transform; there is no optimizer and no loss
parameter.  Line 203 `metrics = metrics or {}` sends both None and the
empty dict to the empty dict; the loop of lines 214-215 attaches every
metric under its key.  The first component is the factory-time trace of
model operations, which is empty. -/
def create_supervised_evaluator {Out : Type} (model : Tensor → Tensor)
    (metrics : Option (List (String × Nat))) (device : Option String)
    (non_blocking : Bool)
    (prepare_batch : List Tensor → Option String → Bool → Except PyError (Tensor × Tensor))
    (output_transform : Tensor → Tensor → Tensor → Out) :
    List Ev × Engine Out :=
  let ms := match metrics with
    | none => []
    | some l => l
  ([],
    { process := _inference model device non_blocking prepare_batch output_transform,
      deterministic := false,
      metrics_attached := ms })

/-- Default evaluator output transform: `lambda x, y, y_pred: (y_pred, y)`. -/
def evaluator_default_output_transform (x y y_pred : Tensor) : Tensor × Tensor :=
  (y_pred, y)

/-- A torch tensor for the metric module: the accumulated values plus a
device tag. -/
structure ETensor where
  data : List Int
  device : Option String
deriving DecidableEq, Repr

/-- Model of `tensor.cpu()`: move to the cpu device, payload unchanged. -/
def ETensor.cpu (t : ETensor) : ETensor :=
  { data := t.data, device := some "cpu" }

/-- Model of `tensor.numpy()`: expose the payload as a plain array. -/
def ETensor.numpy (t : ETensor) : List Int :=
  t.data

/-- The wrapper built by `AveragePrecision.average_precision_compute_fn`
(average_precision.py lines 59-67).  The external
`sklearn.metrics.average_precision_score` is a parameter: the wrapper
only converts both tensors to cpu numpy arrays and forwards them, the
targets as the first argument and the predictions as the second. -/
def average_precision_compute_fn {R : Type}
    (average_precision_score : List Int → List Int → R)
    (y_preds y_targets : ETensor) : R :=
  let y_true := (ETensor.cpu y_targets).numpy
  let y_pred := (ETensor.cpu y_preds).numpy
  average_precision_score y_true y_pred

/-- The state the external EpochMetric base class receives from
`super().__init__` (lines 52-57): the compute function and the forwarded
options. -/
structure EpochMetric (R : Type) where
  compute_fn : ETensor → ETensor → R
  check_compute_fn : Bool
  device : Option String

/-- `AveragePrecision.__init__` (lines 38-57): the try/except of lines
45-48 turns a failing sklearn import into a RuntimeError; otherwise the
sklearn-delegating wrapper is installed as the compute function. -/
def AveragePrecision_init {R : Type} (sklearn_available : Bool)
    (average_precision_score : List Int → List Int → R)
    (check_compute_fn : Bool) (device : Option String) :
    Except PyError (EpochMetric R) :=
  if sklearn_available then
    .ok { compute_fn := average_precision_compute_fn average_precision_score,
          check_compute_fn := check_compute_fn,
          device := device }
  else
    .error PyError.RuntimeError

/-- A concrete model for witnesses: adds one to the datum. -/
def demoModel (t : Tensor) : Tensor :=
  { data := t.data + 1, device := t.device }

/-- A concrete loss for witnesses: difference of the data. -/
def demoLoss (y_pred y : Tensor) : Tensor :=
  { data := y_pred.data - y.data, device := y_pred.device }

/-- A concrete input tensor. -/
def tA : Tensor := { data := 3, device := none }

/-- A concrete target tensor. -/
def tB : Tensor := { data := 5, device := none }

/-- A concrete external score for witnesses: it returns its argument pair,
so it records the order in which the wrapper passes the arrays. -/
def pairScore (a b : List Int) : List Int × List Int := (a, b)

/-- A concrete prediction tensor for the metric. -/
def eT1 : ETensor := { data := [1, 0, 1], device := none }

/-- A concrete target tensor for the metric. -/
def eT2 : ETensor := { data := [0, 1, 1], device := some "cuda" }

/-- The metric state a successful construction over pairScore yields. -/
def apDemo : EpochMetric (List Int × List Int) :=
  { compute_fn := average_precision_compute_fn pairScore,
    check_compute_fn := false,
    device := none }

/-- The closure environment of the amp=False configuration: no amp local
was ever assigned. -/
def plainAmpEnv : AmpEnv :=
  { is_native_amp := none, is_apex_amp := none, autocastBound := false,
    ampTruthy := false }

/-- The engine the trainer factory builds in the plain configuration over
the concrete model and loss. -/
def plainTrainerEngine : Engine Int :=
  { process := _update plainAmpEnv demoModel demoLoss none false _prepare_batch
      trainer_default_output_transform false (on_tpu_of none),
    deterministic := false,
    metrics_attached := [] }

end Ignite

namespace Ignite

/-- Helper: the amp branch selection of the factory can fail only with the
apex ImportError of line 119, never with a RuntimeError. -/
theorem ampEnvResult_ne_RuntimeError (amp t16 apex : Bool) :
    ampEnvResult amp t16 apex ≠ .error PyError.RuntimeError := by
  cases amp <;> cases t16 <;> cases apex <;> intro h <;>
    first
      | exact Except.noConfusion h
      | exact absurd (Except.error.inj h) (by decide)

/-- Claim C1: the claim states that for every flag configuration (native
amp, apex amp, and amp=False) `_update` executes the corresponding branch
and returns the output transform without a dispatch error.  The code does
the opposite: `is_native_amp` and `is_apex_amp` are locals assigned only
inside the amp branches of the factory, so the dispatch at line 125 reads
an unbound local and raises NameError in all three configurations.  Each
conjunct evaluates the trainer built by the factory on a two-element batch:
amp=False, then native amp (amp=True with torch at least 1.6.0), then apex
amp (amp=True, older torch, apex available). -/
theorem C1_update_dispatch_raises_NameError :
    Except.map (fun p => p.2.process [tA, tB])
      (create_supervised_trainer demoModel 0 demoLoss none false _prepare_batch
        trainer_default_output_transform false false false true true false)
      = .ok (.error PyError.NameError) ∧
    Except.map (fun p => p.2.process [tA, tB])
      (create_supervised_trainer demoModel 0 demoLoss none false _prepare_batch
        trainer_default_output_transform false true false true true false)
      = .ok (.error PyError.NameError) ∧
    Except.map (fun p => p.2.process [tA, tB])
      (create_supervised_trainer demoModel 0 demoLoss none false _prepare_batch
        trainer_default_output_transform false true false false true false)
      = .ok (.error PyError.NameError) :=
  ⟨rfl, rfl, rfl⟩

/-- Claim C2, counterexample: the per-iteration callback of
`create_supervised_evaluator` is not configured with an optimizer or a
loss function.  On a concrete two-element batch the callback performs
exactly a model.eval and a forward pass: its trace contains no loss
computation, no optimizer.zero_grad and no optimizer step. -/
theorem C2_evaluator_no_optimizer_counterexample :
    (create_supervised_evaluator demoModel none none false _prepare_batch
        evaluator_default_output_transform).2.process [tA, tB]
      = .ok ([Ev.modelEval, Ev.forward],
          ({ data := 4, device := none }, { data := 5, device := none })) ∧
    Ev.lossCalc ∉ [Ev.modelEval, Ev.forward] ∧
    Ev.zeroGrad ∉ [Ev.modelEval, Ev.forward] ∧
    Ev.optStep ∉ [Ev.modelEval, Ev.forward] :=
  ⟨rfl, by decide, by decide, by decide⟩

/-- Claim C2, amended: the trainer callback is wired with a model, an
optimizer and a loss function, but the evaluator callback is wired with
the model only: every successful iteration of any evaluator built by
`create_supervised_evaluator` traces exactly a model.eval and a forward
pass, with no loss-function or optimizer operation. -/
theorem C2_evaluator_wires_model_only {Out : Type} (model : Tensor → Tensor)
    (metrics : Option (List (String × Nat))) (device : Option String) (nb : Bool)
    (pb : List Tensor → Option String → Bool → Except PyError (Tensor × Tensor))
    (ot : Tensor → Tensor → Tensor → Out) (batch : List Tensor)
    (tr : List Ev) (o : Out)
    (h : (create_supervised_evaluator model metrics device nb pb ot).2.process batch
          = .ok (tr, o)) :
    tr = [Ev.modelEval, Ev.forward] ∧ Ev.lossCalc ∉ tr ∧ Ev.zeroGrad ∉ tr ∧
      Ev.optStep ∉ tr ∧ Ev.forward ∈ tr := by
  have htr : tr = [Ev.modelEval, Ev.forward] := by
    have h3 : _inference model device nb pb ot batch = Except.ok (tr, o) := h
    unfold _inference at h3
    cases hpb : pb batch device nb with
    | error e =>
      rw [hpb] at h3
      exact Except.noConfusion h3
    | ok xy =>
      rw [hpb] at h3
      have h2 := Except.ok.inj h3
      exact ((Prod.ext_iff.mp h2).1).symm
  subst htr
  exact ⟨rfl, by decide, by decide, by decide, by decide⟩

/-- Claim C2, witness for the amended theorem at a concrete evaluator and
batch. -/
theorem C2_evaluator_wires_model_only_witness :
    (create_supervised_evaluator demoModel none none false _prepare_batch
        evaluator_default_output_transform).2.process [tA, tB]
      = .ok ([Ev.modelEval, Ev.forward],
          ({ data := 4, device := none }, { data := 5, device := none })) ∧
    ([Ev.modelEval, Ev.forward] = [Ev.modelEval, Ev.forward] ∧
      Ev.lossCalc ∉ [Ev.modelEval, Ev.forward] ∧
      Ev.zeroGrad ∉ [Ev.modelEval, Ev.forward] ∧
      Ev.optStep ∉ [Ev.modelEval, Ev.forward] ∧
      Ev.forward ∈ [Ev.modelEval, Ev.forward]) :=
  ⟨rfl, C2_evaluator_wires_model_only demoModel none none false _prepare_batch
    evaluator_default_output_transform [tA, tB] [Ev.modelEval, Ev.forward]
    ({ data := 4, device := none }, { data := 5, device := none }) rfl⟩

/-- Claim C3: the claim states that with grad_norm_kwargs supplied the
gradient-clipping call runs on every iteration in the native-amp and
apex-amp configurations.  In the code the dispatch at line 125 raises
NameError before the clipping lines 140-143 can run, in the native-amp
configuration, in the apex-amp configuration, and with amp=False alike,
so no iteration ever reaches a clipping site. -/
theorem C3_clipping_unreachable :
    Except.map (fun p => p.2.process [tA, tB])
      (create_supervised_trainer demoModel 0 demoLoss none false _prepare_batch
        trainer_default_output_transform false true true true true false)
      = .ok (.error PyError.NameError) ∧
    Except.map (fun p => p.2.process [tA, tB])
      (create_supervised_trainer demoModel 0 demoLoss none false _prepare_batch
        trainer_default_output_transform false true true false true false)
      = .ok (.error PyError.NameError) ∧
    Except.map (fun p => p.2.process [tA, tB])
      (create_supervised_trainer demoModel 0 demoLoss none false _prepare_batch
        trainer_default_output_transform false false true true true false)
      = .ok (.error PyError.NameError) :=
  ⟨rfl, rfl, rfl⟩

/-- Claim C4: every metric built by a successful AveragePrecision
construction computes exactly the external average_precision_score applied
to the cpu/numpy conversion of the targets as first argument and of the
predictions as second argument; the class adds no computation of its own. -/
theorem C4_compute_delegates_to_sklearn {R : Type}
    (average_precision_score : List Int → List Int → R)
    (ccf : Bool) (dev : Option String) (m : EpochMetric R)
    (h : AveragePrecision_init true average_precision_score ccf dev = .ok m)
    (y_preds y_targets : ETensor) :
    m.compute_fn y_preds y_targets
      = average_precision_score ((ETensor.cpu y_targets).numpy)
          ((ETensor.cpu y_preds).numpy) := by
  have h3 := Except.ok.inj h
  rw [← h3]
  rfl

/-- Claim C4, witness: a score function returning its argument pair shows
the delegation and the argument order at concrete tensors. -/
theorem C4_compute_delegates_to_sklearn_witness :
    AveragePrecision_init true pairScore false none = .ok apDemo ∧
    apDemo.compute_fn eT1 eT2
      = pairScore ((ETensor.cpu eT2).numpy) ((ETensor.cpu eT1).numpy) :=
  ⟨rfl, C4_compute_delegates_to_sklearn pairScore false none apDemo rfl eT1 eT2⟩

/-- Claim C5: the evaluator factory attaches exactly the metrics of the
given dictionary, each under its key, before returning the engine; a None
metrics argument becomes the empty dictionary and nothing is attached. -/
theorem C5_evaluator_attaches_metrics {Out : Type} (model : Tensor → Tensor)
    (ms : List (String × Nat)) (device : Option String) (nb : Bool)
    (pb : List Tensor → Option String → Bool → Except PyError (Tensor × Tensor))
    (ot : Tensor → Tensor → Tensor → Out) :
    (create_supervised_evaluator model (some ms) device nb pb ot).2.metrics_attached = ms ∧
    (create_supervised_evaluator model none device nb pb ot).2.metrics_attached = [] :=
  ⟨rfl, rfl⟩

/-- Claim C6: on a two-element batch `_prepare_batch` returns exactly the
pair of converted tensors in the (x, y) order, and the conversion is a
pure device move that never changes the payload. -/
theorem C6_prepare_batch_device_move (x y : Tensor) (device : Option String) (nb : Bool) :
    _prepare_batch [x, y] device nb
      = .ok (convert_tensor x device nb, convert_tensor y device nb) ∧
    (convert_tensor x device nb).data = x.data ∧
    (convert_tensor y device nb).data = y.data := by
  refine ⟨rfl, ?_, ?_⟩ <;> cases device <;> rfl

/-- Claim C7: when the device type string contains xla and XLA support is
absent, the trainer factory raises RuntimeError before constructing any
engine; for every device not containing xla, or device None, or when XLA
support is present, the factory never returns that RuntimeError. -/
theorem C7_xla_check {Out : Type} (model : Tensor → Tensor) (optimizer : Nat)
    (loss_fn : Tensor → Tensor → Tensor) (device : Option String) (nb : Bool)
    (pb : List Tensor → Option String → Bool → Except PyError (Tensor × Tensor))
    (ot : Tensor → Tensor → Tensor → Tensor → Out)
    (det amp gkw t16 apex : Bool) :
    (on_tpu_of device = true →
      create_supervised_trainer model optimizer loss_fn device nb pb ot det amp gkw
        t16 apex false = .error PyError.RuntimeError) ∧
    (∀ hx : Bool, on_tpu_of device = false ∨ hx = true →
      create_supervised_trainer model optimizer loss_fn device nb pb ot det amp gkw
        t16 apex hx ≠ .error PyError.RuntimeError) := by
  constructor
  · intro h
    unfold create_supervised_trainer
    rw [h]
    rfl
  · intro hx hcase
    unfold create_supervised_trainer
    have hcond : (on_tpu_of device && !hx) = false := by
      rcases hcase with h | h
      · rw [h]
        rfl
      · rw [h]
        simp
    have hcond2 : ¬((on_tpu_of device && !hx) = true) := by
      rw [hcond]
      simp
    rw [if_neg hcond2]
    cases he : ampEnvResult amp t16 apex with
    | error e =>
      intro hcontra
      have hE : e = PyError.RuntimeError := Except.error.inj hcontra
      rw [hE] at he
      exact ampEnvResult_ne_RuntimeError amp t16 apex he
    | ok env =>
      intro hcontra
      exact Except.noConfusion hcontra

/-- Claim C7, witness: the concrete device string xla without XLA support
hits the RuntimeError, and the None device does not. -/
theorem C7_xla_check_witness :
    on_tpu_of (some "xla") = true ∧
    create_supervised_trainer demoModel 0 demoLoss (some "xla") false _prepare_batch
      trainer_default_output_transform false false false true true false
      = .error PyError.RuntimeError :=
  ⟨by decide, (C7_xla_check demoModel 0 demoLoss (some "xla") false _prepare_batch
    trainer_default_output_transform false false false true true).1 (by decide)⟩

/-- Claim C8: the AveragePrecision constructor turns a missing sklearn
into a RuntimeError, not an ImportError, and with sklearn available it
succeeds and installs the sklearn-delegating wrapper as the compute
function. -/
theorem C8_init_error_and_success {R : Type}
    (average_precision_score : List Int → List Int → R) (ccf : Bool)
    (dev : Option String) :
    (AveragePrecision_init false average_precision_score ccf dev
        = .error PyError.RuntimeError ∧
      AveragePrecision_init false average_precision_score ccf dev
        ≠ .error PyError.ImportError) ∧
    AveragePrecision_init true average_precision_score ccf dev
      = .ok { compute_fn := average_precision_compute_fn average_precision_score,
              check_compute_fn := ccf, device := dev } := by
  refine ⟨⟨rfl, ?_⟩, rfl⟩
  intro hcontra
  have h2 : PyError.RuntimeError = PyError.ImportError := Except.error.inj hcontra
  exact absurd h2 (by decide)

/-- Claim C9: a batch whose length is not two makes the destructuring in
`_prepare_batch` raise, and with the default prepare function both the
trainer update and the evaluator inference propagate that error, so a
two-element batch is a precondition of both default pipelines. -/
theorem C9_prepare_batch_requires_pair {Out Out2 : Type} (batch : List Tensor)
    (device : Option String) (nb : Bool) (env : AmpEnv) (model : Tensor → Tensor)
    (loss_fn : Tensor → Tensor → Tensor)
    (ot : Tensor → Tensor → Tensor → Tensor → Out) (gkw tpu : Bool)
    (ot2 : Tensor → Tensor → Tensor → Out2)
    (h : batch.length ≠ 2) :
    _prepare_batch batch device nb = .error PyError.ValueError ∧
    _update env model loss_fn device nb _prepare_batch ot gkw tpu batch
      = .error PyError.ValueError ∧
    _inference model device nb _prepare_batch ot2 batch = .error PyError.ValueError := by
  have hp : _prepare_batch batch device nb = .error PyError.ValueError := by
    cases batch with
    | nil => rfl
    | cons a t =>
      cases t with
      | nil => rfl
      | cons b t2 =>
        cases t2 with
        | nil => exact absurd rfl h
        | cons c t3 => rfl
  refine ⟨hp, ?_, ?_⟩
  · unfold _update
    rw [hp]
    rfl
  · unfold _inference
    rw [hp]
    rfl

/-- Claim C9, witness at a one-element batch. -/
theorem C9_prepare_batch_requires_pair_witness :
    ([tA] : List Tensor).length ≠ 2 ∧
    _prepare_batch [tA] none false = .error PyError.ValueError :=
  ⟨by decide, (C9_prepare_batch_requires_pair [tA] none false plainAmpEnv demoModel
    demoLoss trainer_default_output_transform false false
    evaluator_default_output_transform (by decide)).1⟩

/-- Claim C10: at factory time neither factory performs any model,
optimizer or loss operation (the factory-time trace is empty), the
trainer engine receives the update closure built from the unchanged
arguments with the device used only inside it, the deterministic flag
only selects the engine class, and the evaluator engine receives the
inference closure built from the unchanged model. -/
theorem C10_factory_frame {Out Out2 : Type} (model : Tensor → Tensor) (optimizer : Nat)
    (loss_fn : Tensor → Tensor → Tensor) (device : Option String) (nb : Bool)
    (pb : List Tensor → Option String → Bool → Except PyError (Tensor × Tensor))
    (ot : Tensor → Tensor → Tensor → Tensor → Out)
    (det amp gkw t16 apex hxla : Bool)
    (metrics : Option (List (String × Nat))) (ot2 : Tensor → Tensor → Tensor → Out2)
    (facTr : List Ev) (eng : Engine Out)
    (h : create_supervised_trainer model optimizer loss_fn device nb pb ot det amp gkw
          t16 apex hxla = .ok (facTr, eng)) :
    facTr = [] ∧
    (∃ env, ampEnvResult amp t16 apex = .ok env ∧
      eng.process = _update env model loss_fn device nb pb ot gkw (on_tpu_of device) ∧
      eng.deterministic = det) ∧
    (create_supervised_evaluator model metrics device nb pb ot2).1 = [] ∧
    (create_supervised_evaluator model metrics device nb pb ot2).2.process
      = _inference model device nb pb ot2 := by
  unfold create_supervised_trainer at h
  by_cases hc : (on_tpu_of device && !hxla) = true
  · rw [if_pos hc] at h
    exact Except.noConfusion h
  · rw [if_neg hc] at h
    cases he : ampEnvResult amp t16 apex with
    | error e =>
      rw [he] at h
      exact Except.noConfusion h
    | ok env =>
      rw [he] at h
      have h2 := Except.ok.inj h
      have hf : facTr = [] := ((Prod.ext_iff.mp h2).1).symm
      have hg := (Prod.ext_iff.mp h2).2
      subst hf
      subst hg
      exact ⟨rfl, ⟨env, rfl, rfl, rfl⟩, rfl, rfl⟩

/-- Claim C10, witness at the concrete plain configuration. -/
theorem C10_factory_frame_witness :
    create_supervised_trainer demoModel 0 demoLoss none false _prepare_batch
      trainer_default_output_transform false false false true true false
      = .ok ([], plainTrainerEngine) ∧
    (([] : List Ev) = [] ∧
      (∃ env, ampEnvResult false true true = .ok env ∧
        plainTrainerEngine.process = _update env demoModel demoLoss none false
          _prepare_batch trainer_default_output_transform false (on_tpu_of none) ∧
        plainTrainerEngine.deterministic = false) ∧
      (create_supervised_evaluator demoModel none none false _prepare_batch
          evaluator_default_output_transform).1 = [] ∧
      (create_supervised_evaluator demoModel none none false _prepare_batch
          evaluator_default_output_transform).2.process
        = _inference demoModel none false _prepare_batch
            evaluator_default_output_transform) :=
  ⟨rfl, C10_factory_frame demoModel 0 demoLoss none false _prepare_batch
    trainer_default_output_transform false false false true true false none
    evaluator_default_output_transform [] plainTrainerEngine rfl⟩

end Ignite
